import Mathlib

/-!
# Verification of the Cassandra PV Archiver Python client

Shallow embedding of the two client modules
(`cassandra_pv_archiver/admin_client.py` and
`cassandra_pv_archiver/archive_client.py`) and proofs about the claims of
the specification.

Conventions of the embedding:
* Python byte strings are `List Nat` with every element `< 256`.
* Python `str` values are Lean `String`s; `str.encode('utf_8')` is modelled
  by `utf8Bytes` below, and decoding an ASCII byte string back to `str` by
  `asciiString`.
* Fallible Python code (code that can raise) returns `Except PyError _`.
* JSON-serializable values produced by the command builder are modelled by
  `JVal`; a JSON object literal is a `List (String × JVal)` in the key
  order of the Python `dict` literal.
-/

namespace CassandraPVArchiver

/-- Errors raised by the Python fragments we model. -/
inductive PyError where
  | typeError
  | nameError
deriving DecidableEq

/-- UTF-8 encoding of a single code point (the standard algorithm; this is
what Python's `str.encode('utf_8')` does per character). -/
def utf8EncodeCharBytes (n : Nat) : List Nat :=
  if n < 0x80 then [n]
  else if n < 0x800 then [0xc0 + n / 64, 0x80 + n % 64]
  else if n < 0x10000 then
    [0xe0 + n / 4096, 0x80 + (n / 64) % 64, 0x80 + n % 64]
  else
    [0xf0 + n / 262144, 0x80 + (n / 4096) % 64, 0x80 + (n / 64) % 64,
     0x80 + n % 64]

/-- Model of Python's `s.encode('utf_8')`: the UTF-8 bytes of a string. -/
def utf8Bytes (s : String) : List Nat :=
  s.data.flatMap (fun c => utf8EncodeCharBytes c.toNat)

/-- Model of Python's `bytes.decode('ascii')` for byte values that are known
to be ASCII: turn each byte into the character with that code. -/
def asciiString (bs : List Nat) : String :=
  String.mk (bs.map Char.ofNat)

/-- The byte-level loop of `_encode_uri_part_custom`
(`admin_client.py`, lines 831-848): a byte that is `-`, `_`, a digit or an
ASCII letter is appended unchanged; any other byte `b` is appended as the
three bytes `0x7e` (tilde), `hex(b // 16)`, `hex(b % 16)` where a nibble
`< 10` maps to `0x30 + nibble` and a nibble `>= 10` maps to
`0x37 + nibble`. -/
def encodeTildeBytes : List Nat → List Nat
  | [] => []
  | b :: rest =>
    (if b == 0x2d || b == 0x5f || (0x30 ≤ b && b ≤ 0x39)
        || (0x41 ≤ b && b ≤ 0x5a) || (0x61 ≤ b && b ≤ 0x7a) then
      [b]
    else
      [0x7e,
       if b / 16 < 10 then 0x30 + b / 16 else 0x37 + b / 16,
       if b % 16 < 10 then 0x30 + b % 16 else 0x37 + b % 16])
    ++ encodeTildeBytes rest

/-- `_encode_uri_part_custom` (`admin_client.py`, lines 820-849): encode the
string as UTF-8, run the tilde-escape loop over the bytes, decode the result
as ASCII. -/
def encode_uri_part_custom (uri_part : String) : String :=
  asciiString (encodeTildeBytes (utf8Bytes uri_part))

/-- The Boolean pass-through test of the tilde-escape loop, as written in the
source (`b == 0x2d or b == 0x5f or 0x30 <= b <= 0x39 or 0x41 <= b <= 0x5a or
0x61 <= b <= 0x7a`). -/
def tildeAllowedByte (b : Nat) : Bool :=
  b == 0x2d || b == 0x5f || (0x30 ≤ b && b ≤ 0x39)
    || (0x41 ≤ b && b ≤ 0x5a) || (0x61 ≤ b && b ≤ 0x7a)

theorem encodeTildeBytes_cons (b : Nat) (rest : List Nat) :
    encodeTildeBytes (b :: rest) =
      (if tildeAllowedByte b then
        [b]
      else
        [0x7e,
         if b / 16 < 10 then 0x30 + b / 16 else 0x37 + b / 16,
         if b % 16 < 10 then 0x30 + b % 16 else 0x37 + b % 16])
      ++ encodeTildeBytes rest := rfl

theorem encodeTildeBytes_of_allowed (bs : List Nat)
    (h : ∀ b ∈ bs, tildeAllowedByte b = true) : encodeTildeBytes bs = bs := by
  induction bs with
  | nil => rfl
  | cons b rest ih =>
    rw [encodeTildeBytes_cons, h b (by simp), ih fun x hx => h x (by simp [hx])]
    simp

theorem utf8Bytes_of_ascii (l : List Char) (h : ∀ c ∈ l, c.toNat < 0x80) :
    l.flatMap (fun c => utf8EncodeCharBytes c.toNat) = l.map Char.toNat := by
  induction l with
  | nil => rfl
  | cons c rest ih =>
    have hc : c.toNat < 0x80 := h c (by simp)
    simp only [List.flatMap_cons, List.map_cons,
      ih fun x hx => h x (by simp [hx])]
    rw [utf8EncodeCharBytes, if_pos hc]
    rfl

theorem asciiString_map_toNat (l : List Char) :
    asciiString (l.map Char.toNat) = String.mk l := by
  unfold asciiString
  rw [List.map_map]
  congr 1
  calc l.map (Char.ofNat ∘ Char.toNat) = l.map id := by
        apply List.map_congr_left
        intro c _
        exact Char.ofNat_toNat c
    _ = l := List.map_id l

/-- C1: the custom URI-part encoder used by `get_channel` works on the UTF-8
bytes of its argument; a byte that is a hyphen, an underscore, a decimal
digit or an ASCII letter passes through unchanged, and every other byte `b`
becomes the three bytes tilde, `hex(b / 16)`, `hex(b % 16)` where nibbles
0-9 map to the codes of '0'-'9' and nibbles 10-15 map to the codes of
'A'-'F', computed arithmetically; space encodes to `~20`, `é` (UTF-8 bytes
`0xC3 0xA9`) encodes to `~C3~A9`, and the encoder is the identity on strings
over the alphabet `[A-Za-z0-9_-]`. -/
theorem C1_tilde_escape :
    (∀ (b : Nat) (rest : List Nat),
      (b = Char.toNat '-' ∨ b = Char.toNat '_'
        ∨ (Char.toNat '0' ≤ b ∧ b ≤ Char.toNat '9')
        ∨ (Char.toNat 'A' ≤ b ∧ b ≤ Char.toNat 'Z')
        ∨ (Char.toNat 'a' ≤ b ∧ b ≤ Char.toNat 'z')) →
      encodeTildeBytes (b :: rest) = b :: encodeTildeBytes rest)
    ∧ (∀ (b : Nat) (rest : List Nat), b < 256 →
      ¬(b = Char.toNat '-' ∨ b = Char.toNat '_'
        ∨ (Char.toNat '0' ≤ b ∧ b ≤ Char.toNat '9')
        ∨ (Char.toNat 'A' ≤ b ∧ b ≤ Char.toNat 'Z')
        ∨ (Char.toNat 'a' ≤ b ∧ b ≤ Char.toNat 'z')) →
      encodeTildeBytes (b :: rest) =
        Char.toNat '~'
          :: (if b / 16 < 10 then Char.toNat '0' + b / 16
              else Char.toNat 'A' + (b / 16 - 10))
          :: (if b % 16 < 10 then Char.toNat '0' + b % 16
              else Char.toNat 'A' + (b % 16 - 10))
          :: encodeTildeBytes rest)
    ∧ encode_uri_part_custom " " = "~20"
    ∧ encode_uri_part_custom "é" = "~C3~A9"
    ∧ (∀ s : String,
      (∀ c ∈ s.data, c = '-' ∨ c = '_'
        ∨ (Char.toNat '0' ≤ c.toNat ∧ c.toNat ≤ Char.toNat '9')
        ∨ (Char.toNat 'A' ≤ c.toNat ∧ c.toNat ≤ Char.toNat 'Z')
        ∨ (Char.toNat 'a' ≤ c.toNat ∧ c.toNat ≤ Char.toNat 'z')) →
      encode_uri_part_custom s = s) := by
  have hdash : Char.toNat '-' = 0x2d := rfl
  have hund : Char.toNat '_' = 0x5f := rfl
  have h0 : Char.toNat '0' = 0x30 := rfl
  have h9 : Char.toNat '9' = 0x39 := rfl
  have hA : Char.toNat 'A' = 0x41 := rfl
  have hZ : Char.toNat 'Z' = 0x5a := rfl
  have ha : Char.toNat 'a' = 0x61 := rfl
  have hz : Char.toNat 'z' = 0x7a := rfl
  have htilde : Char.toNat '~' = 0x7e := rfl
  have hallowed : ∀ b : Nat,
      (b = Char.toNat '-' ∨ b = Char.toNat '_'
        ∨ (Char.toNat '0' ≤ b ∧ b ≤ Char.toNat '9')
        ∨ (Char.toNat 'A' ≤ b ∧ b ≤ Char.toNat 'Z')
        ∨ (Char.toNat 'a' ≤ b ∧ b ≤ Char.toNat 'z')) ↔
      tildeAllowedByte b = true := by
    intro b
    rw [hdash, hund, h0, h9, hA, hZ, ha, hz]
    unfold tildeAllowedByte
    simp only [Bool.or_eq_true, beq_iff_eq, Bool.and_eq_true, decide_eq_true_eq]
    tauto
  refine ⟨?_, ?_, by decide, by decide, ?_⟩
  · intro b rest h
    rw [encodeTildeBytes_cons, if_pos ((hallowed b).mp h)]
    rfl
  · intro b rest _ h
    rw [encodeTildeBytes_cons,
      if_neg (fun hc => h ((hallowed b).mpr hc)), htilde, h0, hA]
    have hhi : (if b / 16 < 10 then 0x30 + b / 16 else 0x37 + b / 16) =
        (if b / 16 < 10 then 48 + b / 16 else 65 + (b / 16 - 10)) := by
      split <;> omega
    have hlo : (if b % 16 < 10 then 0x30 + b % 16 else 0x37 + b % 16) =
        (if b % 16 < 10 then 48 + b % 16 else 65 + (b % 16 - 10)) := by
      have : b % 16 < 16 := Nat.mod_lt _ (by omega)
      split <;> omega
    rw [hhi, hlo]
    rfl
  · intro s hs
    have hascii : ∀ c ∈ s.data, c.toNat < 0x80 := by
      intro c hc
      rcases hs c hc with h | h | h | h | h
      · rw [h]; decide
      · rw [h]; decide
      all_goals omega
    have hall : ∀ b ∈ s.data.map Char.toNat, tildeAllowedByte b = true := by
      intro b hb
      rcases List.mem_map.mp hb with ⟨c, hc, rfl⟩
      refine (hallowed c.toNat).mp ?_
      rcases hs c hc with h | h | h | h | h
      · left; rw [h]
      · right; left; rw [h]
      · right; right; left; exact h
      · right; right; right; left; exact h
      · right; right; right; right; exact h
    unfold encode_uri_part_custom utf8Bytes
    rw [utf8Bytes_of_ascii s.data hascii, encodeTildeBytes_of_allowed _ hall,
      asciiString_map_toNat]

/-- Witness for C1: applied at concrete inputs. -/
theorem C1_tilde_escape_witness :
    encode_uri_part_custom "PV_Name-01" = "PV_Name-01" ∧
    encodeTildeBytes [0x20] = [0x7e, 0x32, 0x30] := by
  constructor
  · exact C1_tilde_escape.2.2.2.2 "PV_Name-01" (by decide)
  · rw [C1_tilde_escape.2.1 0x20 [] (by decide) (by decide)]
    decide

/-! ## Response-status handling

Each public client method inspects `resp.code` with its own inline chain of
conditionals.  We embed each method's chain as a function from the status
code (and, for the two POST methods, the result of parsing the body) to an
`Outcome` describing which exception is raised, or success. -/

/-- The possible results of the inline response handling of a client method:
the distinct `Exception` messages raised by the source, or success. -/
inductive Outcome where
  /-- the method proceeds to use the (parsed) response body -/
  | success
  /-- `raise Exception('Service currently not available')` -/
  | serviceUnavailable
  /-- `raise Exception('Request failed with status code {0}'.format(code))` -/
  | genericFailure (code : Nat)
  /-- `raise Exception('Authentication error')` -/
  | authError
  /-- `raise Exception(error_message or 'Malformed request. ...')` -/
  | malformedRequest (msg : String)
  /-- `raise Exception(resp_data['errorMessage'])` after a parsed body -/
  | logicalError (msg : String)
  /-- `_get_resp_data` itself raised (wrong content type etc.) -/
  | parseFailure
deriving DecidableEq

/-- `_is_success_code` (`admin_client.py` lines 430-436 and
`archive_client.py` lines 187-193): all codes in [200, 300) are success. -/
def is_success_code (status_code : Nat) : Bool :=
  200 ≤ status_code && status_code < 300

/-- The view of a parsed response body that the POST handlers look at:
`Except.error` when `_get_resp_data` raises, otherwise the value of the
top-level `errorMessage` key (`none` = key absent, `some none` = key present
with JSON null, `some (some s)` = key present with string `s`). -/
def RespParse : Type := Except Unit (Option (Option String))

/-- Python `x or fallback` where `x` is `error_message` (a string or None):
the fallback is used when `x` is None or the empty string (falsy). -/
def py_str_or (s : Option String) (fallback : String) : String :=
  match s with
  | some v => if v == "" then fallback else v
  | none => fallback

/-- The code after a successful status check in the POST methods
(`admin_client.py` lines 257-260 and 363-366): parse the body; if the parsed
body has a top-level `errorMessage` that is not None, raise it. -/
def post_body_outcome (parse : RespParse) : Outcome :=
  match parse with
  | .error _ => .parseFailure
  | .ok em =>
    match em with
    | some (some msg) => .logicalError msg
    | _ => .success

/-- The `error_message` computed by the 400 branch of the POST methods:
`resp_data['errorMessage'] if 'errorMessage' in resp_data else None`, with
the whole parse wrapped in `try: ... except: error_message = None`. -/
def post_400_error_message (parse : RespParse) : Option String :=
  match parse with
  | .ok (some m) => m
  | .ok none => none
  | .error _ => none

/-- The response handling shared verbatim by `import_server_configuration`
(lines 236-261) and `run_archive_configuration_commands` (lines 342-367):
403 → authentication error; 400 → malformed request carrying the body's
`errorMessage` if truthy, else the fallback text; 500 → fall through to body
parsing; 503 → service unavailable; any other non-2xx → generic failure;
otherwise parse the body and surface a non-null `errorMessage`. -/
def post_resp_outcome (status_code : Nat) (parse : RespParse) : Outcome :=
  if status_code == 403 then .authError
  else if status_code == 400 then
    .malformedRequest (py_str_or (post_400_error_message parse)
      "Malformed request. Check the input parameters")
  else if status_code == 500 then post_body_outcome parse
  else if status_code == 503 then .serviceUnavailable
  else if !is_success_code status_code then .genericFailure status_code
  else post_body_outcome parse

/-- `import_server_configuration`'s inline response handling
(`admin_client.py` lines 236-261). -/
def import_server_configuration_resp_outcome
    (status_code : Nat) (parse : RespParse) : Outcome :=
  post_resp_outcome status_code parse

/-- `run_archive_configuration_commands`'s inline response handling
(`admin_client.py` lines 342-367); textually identical to the one of
`import_server_configuration`. -/
def run_archive_configuration_commands_resp_outcome
    (status_code : Nat) (parse : RespParse) : Outcome :=
  post_resp_outcome status_code parse

/-- The response handling shared by the GET-style methods that special-case
503 before the generic status check. -/
def get_resp_outcome (status_code : Nat) : Outcome :=
  if status_code == 503 then .serviceUnavailable
  else if !is_success_code status_code then .genericFailure status_code
  else .success

/-- `export_server_configuration` (`admin_client.py` lines 81-88). -/
def export_server_configuration_resp_outcome (status_code : Nat) : Outcome :=
  get_resp_outcome status_code

/-- `get_channel` (`admin_client.py` lines 119-125). -/
def get_channel_resp_outcome (status_code : Nat) : Outcome :=
  get_resp_outcome status_code

/-- `get_cluster_status` (`admin_client.py` lines 136-142). -/
def get_cluster_status_resp_outcome (status_code : Nat) : Outcome :=
  get_resp_outcome status_code

/-- `get_server_status` (`admin_client.py` lines 152-157): this method has
NO special case for 503 — any non-2xx code raises the generic failure. -/
def get_server_status_resp_outcome (status_code : Nat) : Outcome :=
  if !is_success_code status_code then .genericFailure status_code
  else .success

/-- `list_all_channels` (`admin_client.py` lines 276-283). -/
def list_all_channels_resp_outcome (status_code : Nat) : Outcome :=
  get_resp_outcome status_code

/-- `list_channels_for_server` (`admin_client.py` lines 299-306). -/
def list_channels_for_server_resp_outcome (status_code : Nat) : Outcome :=
  get_resp_outcome status_code

/-- `find_channels_by_pattern` (`archive_client.py` lines 59-66). -/
def find_channels_by_pattern_resp_outcome (status_code : Nat) : Outcome :=
  get_resp_outcome status_code

/-- `find_channels_by_regexp` (`archive_client.py` lines 82-89).  Note that
this code is unreachable: the method raises `NameError` while building the
request URL (see `find_channels_by_regexp_req_url`). -/
def find_channels_by_regexp_resp_outcome (status_code : Nat) : Outcome :=
  get_resp_outcome status_code

/-- `get_samples` (`archive_client.py` lines 125-132). -/
def get_samples_resp_outcome (status_code : Nat) : Outcome :=
  get_resp_outcome status_code

/-- C4 counterexample: `get_server_status` has no special case for HTTP 503;
it raises the generic `Request failed with status code 503` failure instead
of the dedicated `Service currently not available` failure. -/
theorem C4_counterexample_get_server_status_503 :
    get_server_status_resp_outcome 503 = Outcome.genericFailure 503 ∧
    get_server_status_resp_outcome 503 ≠ Outcome.serviceUnavailable := by
  decide

/-- C4 (amended): every public operation of `AdminClient` and
`ArchiveClient` except `get_server_status` maps an HTTP 503 response to the
dedicated service-unavailable failure regardless of the response body;
`get_server_status` raises the generic status-code failure instead, and the
two failures are distinct. -/
theorem C4_amended_503_handling :
    export_server_configuration_resp_outcome 503 = Outcome.serviceUnavailable
    ∧ get_channel_resp_outcome 503 = Outcome.serviceUnavailable
    ∧ get_cluster_status_resp_outcome 503 = Outcome.serviceUnavailable
    ∧ list_all_channels_resp_outcome 503 = Outcome.serviceUnavailable
    ∧ list_channels_for_server_resp_outcome 503 = Outcome.serviceUnavailable
    ∧ find_channels_by_pattern_resp_outcome 503 = Outcome.serviceUnavailable
    ∧ find_channels_by_regexp_resp_outcome 503 = Outcome.serviceUnavailable
    ∧ get_samples_resp_outcome 503 = Outcome.serviceUnavailable
    ∧ (∀ parse : RespParse,
        import_server_configuration_resp_outcome 503 parse
          = Outcome.serviceUnavailable
        ∧ run_archive_configuration_commands_resp_outcome 503 parse
          = Outcome.serviceUnavailable)
    ∧ get_server_status_resp_outcome 503 = Outcome.genericFailure 503
    ∧ (∀ c : Nat, Outcome.serviceUnavailable ≠ Outcome.genericFailure c) := by
  refine ⟨rfl, rfl, rfl, rfl, rfl, rfl, rfl, rfl,
    fun parse => ⟨rfl, rfl⟩, rfl, fun c h => Outcome.noConfusion h⟩

/-- Witness for C4 (amended), applied at a concrete parse result. -/
theorem C4_amended_503_handling_witness :
    import_server_configuration_resp_outcome 503 (Except.ok none)
      = Outcome.serviceUnavailable := by
  exact (C4_amended_503_handling.2.2.2.2.2.2.2.2.1 (Except.ok none)).1

/-- C5: for the two POST operations, whenever the status code is 2xx (or the
special 500 case) and the parsed body carries a non-null top-level
`errorMessage` value, the call raises a failure carrying that message
instead of returning the parsed body. -/
theorem C5_errorMessage_logical_failure (status_code : Nat) (msg : String)
    (h : is_success_code status_code = true ∨ status_code = 500) :
    import_server_configuration_resp_outcome status_code
        (Except.ok (some (some msg))) = Outcome.logicalError msg
    ∧ run_archive_configuration_commands_resp_outcome status_code
        (Except.ok (some (some msg))) = Outcome.logicalError msg := by
  have key : post_resp_outcome status_code (Except.ok (some (some msg)))
      = Outcome.logicalError msg := by
    rcases h with h | h
    · have hb : 200 ≤ status_code ∧ status_code < 300 := by
        simpa [is_success_code, Bool.and_eq_true, decide_eq_true_eq] using h
      have h403 : ¬((status_code == 403) = true) := by simp; omega
      have h400 : ¬((status_code == 400) = true) := by simp; omega
      have h500 : ¬((status_code == 500) = true) := by simp; omega
      have h503 : ¬((status_code == 503) = true) := by simp; omega
      rw [post_resp_outcome, if_neg h403, if_neg h400, if_neg h500,
        if_neg h503, if_neg (by simp [h])]
      rfl
    · subst h
      rfl
  exact ⟨key, key⟩

/-- Witness for C5: applied at status 200 with message `X`. -/
theorem C5_errorMessage_logical_failure_witness :
    import_server_configuration_resp_outcome 200 (Except.ok (some (some "X")))
      = Outcome.logicalError "X" :=
  (C5_errorMessage_logical_failure 200 "X" (Or.inl (by decide))).1

/-- C6 counterexample: at HTTP 400 with a parsed body whose `errorMessage`
is the empty string, the code raises the generic fallback text (Python's
`error_message or fallback` treats the empty string as falsy), not a failure
carrying the body's (empty) `errorMessage`. -/
theorem C6_counterexample_400_empty_message :
    import_server_configuration_resp_outcome 400 (Except.ok (some (some "")))
      = Outcome.malformedRequest "Malformed request. Check the input parameters"
    ∧ import_server_configuration_resp_outcome 400 (Except.ok (some (some "")))
      ≠ Outcome.malformedRequest "" := by
  exact ⟨rfl, by decide⟩

/-- C6 (amended): for the POST operations, HTTP 403 raises the
authentication error; HTTP 400 raises a malformed-request failure carrying
the body's `errorMessage` when the body parses and that value is a
non-empty string, and the generic fallback text when the body cannot be
parsed or the `errorMessage` is absent, null or empty; any other status that
is neither 2xx nor one of 400/403/500/503 (e.g. 404) raises the generic
status-code failure; and the three failures are pairwise distinct.  The
handling of `run_archive_configuration_commands` is identical. -/
theorem C6_amended_post_error_tiers :
    (∀ parse : RespParse,
      import_server_configuration_resp_outcome 403 parse = Outcome.authError)
    ∧ (∀ msg : String, msg ≠ "" →
      import_server_configuration_resp_outcome 400 (Except.ok (some (some msg)))
        = Outcome.malformedRequest msg)
    ∧ (import_server_configuration_resp_outcome 400 (Except.error ())
        = Outcome.malformedRequest "Malformed request. Check the input parameters"
      ∧ import_server_configuration_resp_outcome 400 (Except.ok none)
        = Outcome.malformedRequest "Malformed request. Check the input parameters"
      ∧ import_server_configuration_resp_outcome 400 (Except.ok (some none))
        = Outcome.malformedRequest "Malformed request. Check the input parameters"
      ∧ import_server_configuration_resp_outcome 400 (Except.ok (some (some "")))
        = Outcome.malformedRequest "Malformed request. Check the input parameters")
    ∧ (∀ (code : Nat) (parse : RespParse), is_success_code code = false →
      code ≠ 400 → code ≠ 403 → code ≠ 500 → code ≠ 503 →
      import_server_configuration_resp_outcome code parse
        = Outcome.genericFailure code)
    ∧ (∀ parse : RespParse,
      import_server_configuration_resp_outcome 404 parse
        = Outcome.genericFailure 404)
    ∧ (∀ (m : String) (c : Nat),
      Outcome.authError ≠ Outcome.malformedRequest m
      ∧ Outcome.authError ≠ Outcome.genericFailure c
      ∧ Outcome.malformedRequest m ≠ Outcome.genericFailure c)
    ∧ (∀ (code : Nat) (parse : RespParse),
      run_archive_configuration_commands_resp_outcome code parse
        = import_server_configuration_resp_outcome code parse) := by
  have generic : ∀ (code : Nat) (parse : RespParse),
      is_success_code code = false →
      code ≠ 400 → code ≠ 403 → code ≠ 500 → code ≠ 503 →
      import_server_configuration_resp_outcome code parse
        = Outcome.genericFailure code := by
    intro code parse hs h400 h403 h500 h503
    rw [import_server_configuration_resp_outcome, post_resp_outcome,
      if_neg (by simpa using h403), if_neg (by simpa using h400),
      if_neg (by simpa using h500), if_neg (by simpa using h503),
      if_pos (by simp [hs])]
  refine ⟨fun parse => rfl, ?_, ⟨rfl, rfl, rfl, rfl⟩, generic,
    fun parse => generic 404 parse (by decide) (by decide) (by decide)
      (by decide) (by decide),
    fun m c => ⟨fun h => Outcome.noConfusion h, fun h => Outcome.noConfusion h,
      fun h => Outcome.noConfusion h⟩,
    fun code parse => rfl⟩
  intro msg hmsg
  rw [import_server_configuration_resp_outcome, post_resp_outcome,
    if_neg (by decide), if_pos (by decide)]
  have : py_str_or (post_400_error_message (Except.ok (some (some msg))))
      "Malformed request. Check the input parameters" = msg := by
    simp [post_400_error_message, py_str_or, hmsg]
  rw [this]

/-- Witness for C6 (amended), applied at concrete inputs. -/
theorem C6_amended_post_error_tiers_witness :
    import_server_configuration_resp_outcome 403 (Except.ok none)
      = Outcome.authError
    ∧ import_server_configuration_resp_outcome 400
        (Except.ok (some (some "boom"))) = Outcome.malformedRequest "boom"
    ∧ import_server_configuration_resp_outcome 404 (Except.ok none)
      = Outcome.genericFailure 404 :=
  ⟨C6_amended_post_error_tiers.1 (Except.ok none),
   C6_amended_post_error_tiers.2.1 "boom" (by decide),
   C6_amended_post_error_tiers.2.2.2.1 404 (Except.ok none) (by decide)
     (by decide) (by decide) (by decide) (by decide)⟩

/-! ## The command batch builder (`ArchiveConfigurationCommands`)

A command is serialized as a JSON object; we model it as the association
list of the Python `dict` literal, in the literal's key order.  Scalar
arguments (channel names, control-system types, server UUIDs) are modelled
as `String`s (Python `str(x)` on a `str` is the identity); decimation
periods and retention periods as `Int` (Python `str` of an `int` prints the
same decimal form as Lean's `toString`). -/

/-- A JSON value as produced by the command builder. -/
inductive JVal where
  | jnull
  | jbool (b : Bool)
  | jstr (s : String)
  | jlist (elems : List String)
  | jdict (pairs : List (String × String))
deriving DecidableEq

/-- A serialized command: the key/value pairs of the Python `dict` literal,
in source order. -/
abbrev Cmd : Type := List (String × JVal)

/-- What a Python attribute access evaluates to, in the fragment we model:
either a list (iterable) or a bound method.  Calling a bound method with
`()` yields its result; merely naming it yields the function object. -/
inductive PyAttr (α : Type) where
  | asList (xs : List α)
  | asBoundMethod (call : Unit → List α)

/-- A Python dict(-like) object, as documented for `_make_str_dict`: it has
an `items` method returning its key-value pairs. -/
structure PyDict (K V : Type) where
  pairs : List (K × V)

/-- Attribute access `d.items` on a dict-like object yields the bound
method itself (a function object), not the list of pairs; `d.items()` would
yield the pairs. -/
def PyDict.items (d : PyDict K V) : PyAttr (K × V) :=
  PyAttr.asBoundMethod (fun _ => d.pairs)

/-- Python `for x in e`: iteration succeeds on a list and raises
`TypeError` on a bound method (a function object is not iterable). -/
def pyFor (a : PyAttr α) : Except PyError (List α) :=
  match a with
  | PyAttr.asList xs => Except.ok xs
  | PyAttr.asBoundMethod _ => Except.error PyError.typeError

/-- Python `bool(x)` for an argument that is either `None` or a `bool`. -/
def pyBool (x : Option Bool) : Bool :=
  match x with
  | none => false
  | some b => b

/-- `_make_str` (`admin_client.py` lines 852-860):
`str(obj) if obj is not None else None`. -/
def make_str (obj : Option String) : JVal :=
  match obj with
  | some s => JVal.jstr s
  | none => JVal.jnull

/-- `_make_str_list` (`admin_client.py` lines 883-899):
`[str(elem) for elem in list_like_obj] if list_like_obj is not None else
None`. -/
def make_str_list [ToString α] (list_like_obj : Option (List α)) : JVal :=
  match list_like_obj with
  | some xs => JVal.jlist (xs.map toString)
  | none => JVal.jnull

/-- `_make_str_dict` (`admin_client.py` lines 863-880):
`{str(key): str(value) for key, value in dict_like_obj.items} if
dict_like_obj is not None else None`.  NOTE: the source iterates over
`dict_like_obj.items` — the bound method, without calling it — so for every
non-None dict-like argument the comprehension raises `TypeError`. -/
def make_str_dict [ToString K] [ToString V] (dict_like_obj : Option (PyDict K V)) :
    Except PyError JVal :=
  match dict_like_obj with
  | none => Except.ok JVal.jnull
  | some d => do
    let kvs ← pyFor d.items
    Except.ok (JVal.jdict (kvs.map (fun kv => (toString kv.1, toString kv.2))))

/-- `ArchiveConfigurationCommands.add_channel` (`admin_client.py` lines
493-551): build the command `dict` literal and append it to the list.  The
values of the literal are evaluated in key order, so a `TypeError` from
`_make_str_dict` propagates before anything is appended. -/
def add_channel (self : List Cmd) (channel_name control_system_type server_id : String)
    (decimation_levels : Option (List Int) := none)
    (decimation_level_to_retention_period : Option (PyDict Int Int) := none)
    (enabled : Option Bool := some true)
    (options : Option (PyDict String String) := none) :
    Except PyError (List Cmd) := do
  let dlrp ← make_str_dict decimation_level_to_retention_period
  let opts ← make_str_dict options
  let command : Cmd :=
    [("channelName", make_str (some channel_name)),
     ("commandType", JVal.jstr "add_channel"),
     ("controlSystemType", make_str (some control_system_type)),
     ("decimationLevels", make_str_list decimation_levels),
     ("decimationLevelToRetentionPeriod", dlrp),
     ("enabled", JVal.jbool (pyBool enabled)),
     ("options", opts),
     ("serverId", make_str (some server_id))]
  return self ++ [command]

/-- `ArchiveConfigurationCommands.add_or_update_channel` (`admin_client.py`
lines 553-612); identical to `add_channel` except for the command type. -/
def add_or_update_channel (self : List Cmd)
    (channel_name control_system_type server_id : String)
    (decimation_levels : Option (List Int) := none)
    (decimation_level_to_retention_period : Option (PyDict Int Int) := none)
    (enabled : Option Bool := some true)
    (options : Option (PyDict String String) := none) :
    Except PyError (List Cmd) := do
  let dlrp ← make_str_dict decimation_level_to_retention_period
  let opts ← make_str_dict options
  let command : Cmd :=
    [("channelName", make_str (some channel_name)),
     ("commandType", JVal.jstr "add_or_update_channel"),
     ("controlSystemType", make_str (some control_system_type)),
     ("decimationLevels", make_str_list decimation_levels),
     ("decimationLevelToRetentionPeriod", dlrp),
     ("enabled", JVal.jbool (pyBool enabled)),
     ("options", opts),
     ("serverId", make_str (some server_id))]
  return self ++ [command]

/-- `ArchiveConfigurationCommands.move_channel` (`admin_client.py` lines
614-636). -/
def move_channel (self : List Cmd) (channel_name new_server_id : String)
    (expected_old_server_id : Option String := none) : List Cmd :=
  self ++
    [[("channelName", make_str (some channel_name)),
      ("commandType", JVal.jstr "move_channel"),
      ("expectedOldServerId", make_str expected_old_server_id),
      ("newServerId", make_str (some new_server_id))]]

/-- `ArchiveConfigurationCommands.refresh_channel` (`admin_client.py` lines
638-656). -/
def refresh_channel (self : List Cmd) (channel_name server_id : String) :
    List Cmd :=
  self ++
    [[("channelName", make_str (some channel_name)),
      ("commandType", JVal.jstr "refresh_channel"),
      ("serverId", make_str (some server_id))]]

/-- `ArchiveConfigurationCommands.remove_channel` (`admin_client.py` lines
658-676). -/
def remove_channel (self : List Cmd) (channel_name : String)
    (expected_server_id : Option String := none) : List Cmd :=
  self ++
    [[("channelName", make_str (some channel_name)),
      ("commandType", JVal.jstr "remove_channel"),
      ("expectedServerId", make_str expected_server_id)]]

/-- `ArchiveConfigurationCommands.rename_channel` (`admin_client.py` lines
678-700). -/
def rename_channel (self : List Cmd) (new_channel_name old_channel_name : String)
    (expected_server_id : Option String := none) : List Cmd :=
  self ++
    [[("commandType", JVal.jstr "rename_channel"),
      ("expectedServerId", make_str expected_server_id),
      ("newChannelName", make_str (some new_channel_name)),
      ("oldChannelName", make_str (some old_channel_name))]]

/-- `ArchiveConfigurationCommands.update_channel` (`admin_client.py` lines
702-817).  The `dict` literal evaluates its values in key order, so the
`_make_str_dict` calls run in the order `addOptions`,
`decimationLevelToRetentionPeriod`, `options`. -/
def update_channel (self : List Cmd) (channel_name : String)
    (add_decimation_levels : Option (List Int) := none)
    (add_options : Option (PyDict String String) := none)
    (decimation_levels : Option (List Int) := none)
    (decimation_level_to_retention_period : Option (PyDict Int Int) := none)
    (enabled : Option Bool := none)
    (expected_control_system_type : Option String := none)
    (expected_server_id : Option String := none)
    (options : Option (PyDict String String) := none)
    (remove_decimation_levels : Option (List Int) := none)
    (remove_options : Option (List String) := none) :
    Except PyError (List Cmd) := do
  let addOpts ← make_str_dict add_options
  let dlrp ← make_str_dict decimation_level_to_retention_period
  let opts ← make_str_dict options
  let command : Cmd :=
    [("addDecimationLevels", make_str_list add_decimation_levels),
     ("addOptions", addOpts),
     ("channelName", make_str (some channel_name)),
     ("commandType", JVal.jstr "update_channel"),
     ("decimationLevels", make_str_list decimation_levels),
     ("decimationLevelToRetentionPeriod", dlrp),
     ("enabled", match enabled with
       | some b => JVal.jbool (pyBool (some b))
       | none => JVal.jnull),
     ("expectedControlSystemType", make_str expected_control_system_type),
     ("expectedServerId", make_str expected_server_id),
     ("options", opts),
     ("removeDecimationLevels", make_str_list remove_decimation_levels),
     ("removeOptions", make_str_list remove_options)]
  return self ++ [command]

/-- C2 (code bug): `_make_str_dict` iterates over `dict_like_obj.items` —
the bound method, never called — so for every non-None mapping it raises
`TypeError` instead of building the string-to-string dict its own docstring
promises; consequently `add_channel` with a non-None `options` mapping
raises instead of appending a command.  The `None` half of the claim (the
field is null) does hold. -/
theorem C2_make_str_dict_type_error :
    make_str_dict (some (PyDict.mk [("limit", "100")]))
      = Except.error PyError.typeError
    ∧ make_str_dict (none : Option (PyDict String String))
      = Except.ok JVal.jnull
    ∧ make_str_dict (none : Option (PyDict Int Int)) = Except.ok JVal.jnull
    ∧ add_channel [] "ch" "cs" "srv" none none (some true)
        (some (PyDict.mk [("limit", "100")]))
      = Except.error PyError.typeError :=
  ⟨rfl, rfl, rfl, rfl⟩

/-- C9 counterexample: `add_or_update_channel` called with a non-None
`decimation_level_to_retention_period` mapping does not append a command:
it raises `TypeError` (via `_make_str_dict`), leaving the batch as it was. -/
theorem C9_counterexample_builder_append :
    add_or_update_channel [] "ch" "cs" "srv" none
        (some (PyDict.mk [((300 : Int), (86400 : Int))])) (some true) none
      = Except.error PyError.typeError
    ∧ ¬ ∃ cmd : Cmd,
      add_or_update_channel [] "ch" "cs" "srv" none
          (some (PyDict.mk [((300 : Int), (86400 : Int))])) (some true) none
        = Except.ok ([] ++ [cmd]) := by
  refine ⟨rfl, ?_⟩
  rintro ⟨cmd, h⟩
  rw [show add_or_update_channel [] "ch" "cs" "srv" none
      (some (PyDict.mk [((300 : Int), (86400 : Int))])) (some true) none
    = Except.error PyError.typeError from rfl] at h
  exact Except.noConfusion h

/-- C9 (amended): each of the seven builder methods of
`ArchiveConfigurationCommands`, when every mapping-typed argument is `None`,
appends exactly one command to the end of the batch — with exactly the
documented keys for its command type, in the order of the source `dict`
literal, and JSON null for every optional field whose parameter defaults to
`None` and is unsupplied — and returns every previously appended entry
unchanged and in order.  When a non-None mapping is passed, the method
instead raises `TypeError` (the `_make_str_dict` defect) and appends
nothing. -/
theorem C9_amended_builder_append :
    (∀ (prior : List Cmd) (cn cst sid : String),
      add_channel prior cn cst sid none none (some true) none
        = Except.ok (prior ++
          [[("channelName", JVal.jstr cn),
            ("commandType", JVal.jstr "add_channel"),
            ("controlSystemType", JVal.jstr cst),
            ("decimationLevels", JVal.jnull),
            ("decimationLevelToRetentionPeriod", JVal.jnull),
            ("enabled", JVal.jbool true),
            ("options", JVal.jnull),
            ("serverId", JVal.jstr sid)]]))
    ∧ (∀ (prior : List Cmd) (cn cst sid : String),
      add_or_update_channel prior cn cst sid none none (some true) none
        = Except.ok (prior ++
          [[("channelName", JVal.jstr cn),
            ("commandType", JVal.jstr "add_or_update_channel"),
            ("controlSystemType", JVal.jstr cst),
            ("decimationLevels", JVal.jnull),
            ("decimationLevelToRetentionPeriod", JVal.jnull),
            ("enabled", JVal.jbool true),
            ("options", JVal.jnull),
            ("serverId", JVal.jstr sid)]]))
    ∧ (∀ (prior : List Cmd) (cn nsid : String),
      move_channel prior cn nsid none
        = prior ++
          [[("channelName", JVal.jstr cn),
            ("commandType", JVal.jstr "move_channel"),
            ("expectedOldServerId", JVal.jnull),
            ("newServerId", JVal.jstr nsid)]])
    ∧ (∀ (prior : List Cmd) (cn sid : String),
      refresh_channel prior cn sid
        = prior ++
          [[("channelName", JVal.jstr cn),
            ("commandType", JVal.jstr "refresh_channel"),
            ("serverId", JVal.jstr sid)]])
    ∧ (∀ (prior : List Cmd) (cn : String),
      remove_channel prior cn none
        = prior ++
          [[("channelName", JVal.jstr cn),
            ("commandType", JVal.jstr "remove_channel"),
            ("expectedServerId", JVal.jnull)]])
    ∧ (∀ (prior : List Cmd) (ncn ocn : String),
      rename_channel prior ncn ocn none
        = prior ++
          [[("commandType", JVal.jstr "rename_channel"),
            ("expectedServerId", JVal.jnull),
            ("newChannelName", JVal.jstr ncn),
            ("oldChannelName", JVal.jstr ocn)]])
    ∧ (∀ (prior : List Cmd) (cn : String),
      update_channel prior cn none none none none none none none none none none
        = Except.ok (prior ++
          [[("addDecimationLevels", JVal.jnull),
            ("addOptions", JVal.jnull),
            ("channelName", JVal.jstr cn),
            ("commandType", JVal.jstr "update_channel"),
            ("decimationLevels", JVal.jnull),
            ("decimationLevelToRetentionPeriod", JVal.jnull),
            ("enabled", JVal.jnull),
            ("expectedControlSystemType", JVal.jnull),
            ("expectedServerId", JVal.jnull),
            ("options", JVal.jnull),
            ("removeDecimationLevels", JVal.jnull),
            ("removeOptions", JVal.jnull)]]))
    ∧ (∀ (prior : List Cmd) (cn cst sid : String) (d : PyDict Int Int),
      add_channel prior cn cst sid none (some d) (some true) none
        = Except.error PyError.typeError)
    ∧ (∀ (prior : List Cmd) (cn cst sid : String) (d : PyDict String String),
      add_channel prior cn cst sid none none (some true) (some d)
        = Except.error PyError.typeError)
    ∧ (∀ (prior : List Cmd) (cn : String) (d : PyDict String String),
      update_channel prior cn none (some d) none none none none none none
          none none
        = Except.error PyError.typeError) :=
  ⟨fun _ _ _ _ => rfl, fun _ _ _ _ => rfl, fun _ _ _ => rfl, fun _ _ _ => rfl,
   fun _ _ => rfl, fun _ _ _ => rfl, fun _ _ => rfl,
   fun _ _ _ _ _ => rfl, fun _ _ _ _ _ => rfl, fun _ _ _ => rfl⟩

/-- C10: in `add_channel` and `add_or_update_channel`, passing
`enabled=None` stores the literal boolean false in the command's `enabled`
field (Python `bool(None)`), not null; `update_channel` alone maps
`enabled=None` to null (leave unchanged). -/
theorem C10_enabled_none_coercion :
    (∀ (prior : List Cmd) (cn cst sid : String) (dl : Option (List Int)),
      add_channel prior cn cst sid dl none none none
        = Except.ok (prior ++
          [[("channelName", JVal.jstr cn),
            ("commandType", JVal.jstr "add_channel"),
            ("controlSystemType", JVal.jstr cst),
            ("decimationLevels", make_str_list dl),
            ("decimationLevelToRetentionPeriod", JVal.jnull),
            ("enabled", JVal.jbool false),
            ("options", JVal.jnull),
            ("serverId", JVal.jstr sid)]]))
    ∧ (∀ (prior : List Cmd) (cn cst sid : String) (dl : Option (List Int)),
      add_or_update_channel prior cn cst sid dl none none none
        = Except.ok (prior ++
          [[("channelName", JVal.jstr cn),
            ("commandType", JVal.jstr "add_or_update_channel"),
            ("controlSystemType", JVal.jstr cst),
            ("decimationLevels", make_str_list dl),
            ("decimationLevelToRetentionPeriod", JVal.jnull),
            ("enabled", JVal.jbool false),
            ("options", JVal.jnull),
            ("serverId", JVal.jstr sid)]]))
    ∧ (∀ (prior : List Cmd) (cn : String) (en : Bool),
      update_channel prior cn none none none none (some en) none none none
          none none
        = Except.ok (prior ++
          [[("addDecimationLevels", JVal.jnull),
            ("addOptions", JVal.jnull),
            ("channelName", JVal.jstr cn),
            ("commandType", JVal.jstr "update_channel"),
            ("decimationLevels", JVal.jnull),
            ("decimationLevelToRetentionPeriod", JVal.jnull),
            ("enabled", JVal.jbool en),
            ("expectedControlSystemType", JVal.jnull),
            ("expectedServerId", JVal.jnull),
            ("options", JVal.jnull),
            ("removeDecimationLevels", JVal.jnull),
            ("removeOptions", JVal.jnull)]]))
    ∧ (∀ (prior : List Cmd) (cn : String),
      update_channel prior cn none none none none none none none none none
          none
        = Except.ok (prior ++
          [[("addDecimationLevels", JVal.jnull),
            ("addOptions", JVal.jnull),
            ("channelName", JVal.jstr cn),
            ("commandType", JVal.jstr "update_channel"),
            ("decimationLevels", JVal.jnull),
            ("decimationLevelToRetentionPeriod", JVal.jnull),
            ("enabled", JVal.jnull),
            ("expectedControlSystemType", JVal.jnull),
            ("expectedServerId", JVal.jnull),
            ("options", JVal.jnull),
            ("removeDecimationLevels", JVal.jnull),
            ("removeOptions", JVal.jnull)]])) :=
  ⟨fun _ _ _ _ _ => rfl, fun _ _ _ _ _ => rfl, fun _ _ _ => rfl,
   fun _ _ => rfl⟩

/-! ## URL construction in `ArchiveClient` -/

/-- The characters `urllib.parse.quote` never escapes: ASCII letters,
digits, and `_.-~`.  With `safe=''` (as in the source) nothing else is
safe. -/
def quoteSafeByte (b : Nat) : Bool :=
  (0x41 ≤ b && b ≤ 0x5a) || (0x61 ≤ b && b ≤ 0x7a) || (0x30 ≤ b && b ≤ 0x39)
    || b == 0x5f || b == 0x2e || b == 0x2d || b == 0x7e

/-- Code of an uppercase hexadecimal digit, as `quote` emits them. -/
def percentHexDigit (n : Nat) : Nat :=
  if n < 10 then 0x30 + n else 0x37 + n

/-- Byte-level percent-encoding of `urllib.parse.quote`: a safe byte passes
through; any other byte `b` becomes `%`, `hex(b / 16)`, `hex(b % 16)` with
uppercase hex digits. -/
def quoteBytes : List Nat → List Nat
  | [] => []
  | b :: rest =>
    (if quoteSafeByte b then [b]
     else [0x25, percentHexDigit (b / 16), percentHexDigit (b % 16)])
    ++ quoteBytes rest

/-- `urllib.parse.quote(s, safe='')`: percent-encode the UTF-8 bytes of
`s`, nothing considered safe beyond the always-safe alphabet. -/
def quote (s : String) : String :=
  asciiString (quoteBytes (utf8Bytes s))

/-- Python local-name lookup: the value of `name` in `scope`, or a
`NameError` when the name is not bound. -/
def lookupLocal (scope : List (String × String)) (name : String) :
    Except PyError String :=
  match scope.lookup name with
  | some v => Except.ok v
  | none => Except.error PyError.nameError

/-- The request URL built by `find_channels_by_pattern`
(`archive_client.py` lines 56-57):
`'/archive/1/channels-by-pattern/{0}'.format(urllib.parse.quote(pattern,
safe=''))`, where `pattern` is the method's own parameter. -/
def find_channels_by_pattern_req_url (pattern : String) : String :=
  "/archive/1/channels-by-pattern/" ++ quote pattern

/-- The request URL built by `find_channels_by_regexp`
(`archive_client.py` lines 79-80):
`'/archive/1/channels-by-regexp/{0}'.format(urllib.parse.quote(pattern,
safe=''))` — but the method's parameter is named `regular_expression`; the
name `pattern` is not bound in the local scope (nor at module level), so
evaluating it raises `NameError` before any request is made. -/
def find_channels_by_regexp_req_url (regular_expression : String) :
    Except PyError String := do
  let pattern ← lookupLocal [("regular_expression", regular_expression)]
    "pattern"
  Except.ok ("/archive/1/channels-by-regexp/" ++ quote pattern)

/-- The request URL built by `get_samples` (`archive_client.py` lines
118-123): the percent-encoded channel name with `start`/`end` query
parameters, plus `&count={count}` appended when `count > 0`. -/
def get_samples_req_url (channel_name : String)
    (start_time end_time : Int) (count : Int := 0) : String :=
  let req_url := "/archive/1/samples/" ++ quote channel_name
    ++ "?start=" ++ toString start_time ++ "&end=" ++ toString end_time
  if count > 0 then req_url ++ "&count=" ++ toString count else req_url

/-- C3 (code bug): `find_channels_by_regexp` references the undefined name
`pattern` (its parameter is `regular_expression`), so every call raises
`NameError` while formatting the request URL; no GET request with the
percent-encoded argument is ever issued. -/
theorem C3_find_channels_by_regexp_name_error :
    (∀ regular_expression : String,
      find_channels_by_regexp_req_url regular_expression
        = Except.error PyError.nameError)
    ∧ find_channels_by_regexp_req_url "a.*"
      = Except.error PyError.nameError := by
  constructor
  · intro re
    rfl
  · rfl

/-! ## `import_server_configuration`'s request body -/

/-- Code of the `n`-th character of the standard base64 alphabet
(`A-Za-z0-9+/`). -/
def base64Char (n : Nat) : Nat :=
  if n < 26 then 65 + n
  else if n < 52 then 97 + (n - 26)
  else if n < 62 then 48 + (n - 52)
  else if n == 62 then 43
  else 47

/-- Standard base64 encoding with `=` padding, as `base64.b64encode`
produces it: three input bytes become four alphabet characters; one or two
leftover bytes are padded with `==` or `=`. -/
def b64encode : List Nat → List Nat
  | [] => []
  | [b1] =>
    [base64Char (b1 / 4), base64Char (b1 % 4 * 16), 0x3d, 0x3d]
  | [b1, b2] =>
    [base64Char (b1 / 4), base64Char (b1 % 4 * 16 + b2 / 16),
     base64Char (b2 % 16 * 4), 0x3d]
  | b1 :: b2 :: b3 :: rest =>
    base64Char (b1 / 4) :: base64Char (b1 % 4 * 16 + b2 / 16)
      :: base64Char (b2 % 16 * 4 + b3 / 64) :: base64Char (b3 % 64)
      :: b64encode rest

/-- The JSON request body built by `import_server_configuration`
(`admin_client.py` lines 222-234): the configuration payload (the argument
itself when it is `bytes`, otherwise the bytes read from the file at that
path) is base64-encoded and placed in `configurationFile`, alongside the
four boolean flags, in the key order of the source `dict` literal.  The
defaults mirror the method's parameter defaults. -/
def import_server_configuration_req_data (configuration_file : List Nat)
    (add_channels : Bool := true) (remove_channels : Bool := false)
    (update_channels : Bool := true) (simulate : Bool := false) : Cmd :=
  [("addChannels", JVal.jbool add_channels),
   ("configurationFile", JVal.jstr (asciiString (b64encode configuration_file))),
   ("removeChannels", JVal.jbool remove_channels),
   ("simulate", JVal.jbool simulate),
   ("updateChannels", JVal.jbool update_channels)]

/-- C7: the import request body holds exactly the base64 encoding of the
configuration payload in `configurationFile` together with the four boolean
flags, whose defaults are `addChannels=true`, `removeChannels=false`,
`updateChannels=true`, `simulate=false`; checked against the standard
base64 test vector `"hello"` → `"aGVsbG8="` and the empty payload. -/
theorem C7_import_req_body :
    (∀ (cfg : List Nat) (a r u s : Bool),
      import_server_configuration_req_data cfg a r u s
        = [("addChannels", JVal.jbool a),
           ("configurationFile",
             JVal.jstr (asciiString (b64encode cfg))),
           ("removeChannels", JVal.jbool r),
           ("simulate", JVal.jbool s),
           ("updateChannels", JVal.jbool u)])
    ∧ (∀ cfg : List Nat,
      import_server_configuration_req_data cfg
        = import_server_configuration_req_data cfg true false true false)
    ∧ import_server_configuration_req_data [104, 101, 108, 108, 111]
      = [("addChannels", JVal.jbool true),
         ("configurationFile", JVal.jstr "aGVsbG8="),
         ("removeChannels", JVal.jbool false),
         ("simulate", JVal.jbool false),
         ("updateChannels", JVal.jbool true)]
    ∧ import_server_configuration_req_data []
      = [("addChannels", JVal.jbool true),
         ("configurationFile", JVal.jstr ""),
         ("removeChannels", JVal.jbool false),
         ("simulate", JVal.jbool false),
         ("updateChannels", JVal.jbool true)] := by
  refine ⟨fun _ _ _ _ _ => rfl, fun _ => rfl, by decide, by decide⟩

/-- C8: `get_samples` builds
`/archive/1/samples/{quoted channel}?start={start}&end={end}` and appends
`&count={count}` exactly when `count` is positive; in particular
`get_samples("ch1", 1000, 2000)` yields
`/archive/1/samples/ch1?start=1000&end=2000` and `count=50` appends
`&count=50`. -/
theorem C8_get_samples_url (channel_name : String)
    (start_time end_time count : Int) :
    (0 < count →
      get_samples_req_url channel_name start_time end_time count
        = "/archive/1/samples/" ++ quote channel_name ++ "?start="
          ++ toString start_time ++ "&end=" ++ toString end_time
          ++ "&count=" ++ toString count)
    ∧ (¬ 0 < count →
      get_samples_req_url channel_name start_time end_time count
        = "/archive/1/samples/" ++ quote channel_name ++ "?start="
          ++ toString start_time ++ "&end=" ++ toString end_time)
    ∧ get_samples_req_url "ch1" 1000 2000
      = "/archive/1/samples/ch1?start=1000&end=2000"
    ∧ get_samples_req_url "ch1" 1000 2000 50
      = "/archive/1/samples/ch1?start=1000&end=2000&count=50" := by
  refine ⟨?_, ?_, by decide, by decide⟩
  · intro h
    rw [get_samples_req_url, if_pos h]
  · intro h
    rw [get_samples_req_url, if_neg h]

/-- Witness for C8: applied at the two documented calls. -/
theorem C8_get_samples_url_witness :
    get_samples_req_url "ch1" 1000 2000 50
      = "/archive/1/samples/" ++ quote "ch1" ++ "?start=" ++ toString (1000 : Int)
        ++ "&end=" ++ toString (2000 : Int) ++ "&count=" ++ toString (50 : Int)
    ∧ get_samples_req_url "ch1" 1000 2000 0
      = "/archive/1/samples/" ++ quote "ch1" ++ "?start="
        ++ toString (1000 : Int) ++ "&end=" ++ toString (2000 : Int) :=
  ⟨(C8_get_samples_url "ch1" 1000 2000 50).1 (by decide),
   (C8_get_samples_url "ch1" 1000 2000 0).2.1 (by decide)⟩

end CassandraPVArchiver
